import Mathlib

/-!
Verification of the DD-AA model visualization repository (Grafico-IF).

Shallow embedding of the repository's core logic:
  * `src/parameters.py` — the `Parameters` record of the Keynesian sub-model;
  * `src/solver.py`     — `get_scenario_frames` and the frame-building helpers,
                          plus the legacy `solve_equilibrium`;
  * `src/model.py`      — `DDAAModel.dd_curve`, `aa_curve`, `find_equilibrium`;
  * `app.py`            — the `SCENARIOS` registry and the navigation handlers.

Python floats are embedded as rationals (ℚ), so arithmetic is exact; the only
non-rational values produced by the code are the investment-curve samples
`30 + 20*sqrt(i/8)`, which are represented exactly and symbolically by the
`SqrtVal` record below.  Fallible operations (float division, which raises
`ZeroDivisionError` in Python when the divisor is zero) return `Option`.
-/

/-! ## Keynesian-cross sub-model (src/parameters.py, src/solver.py lines 339-349) -/

/-- Exogenous parameters of the Keynesian model (`src/parameters.py`). -/
structure Parameters where
  alpha : ℚ
  beta : ℚ
  investment_intercept : ℚ
  investment_slope : ℚ
  government : ℚ
  tax : ℚ
deriving DecidableEq

/-- Python float division: raises `ZeroDivisionError` when the divisor is `0.0`,
embedded here as `none`. -/
def fdiv (a b : ℚ) : Option ℚ :=
  if b = 0 then none else some (a / b)

/-- Legacy equilibrium solver (`src/solver.py::solve_equilibrium`):
`Y = (alpha + investment_intercept - investment_slope*r + government - beta*tax) / (1 - beta)`.
The division is Python float division, hence `none` when `1 - beta == 0`. -/
def solve_equilibrium (params : Parameters) (interest_rate : ℚ) : Option ℚ :=
  let numerator :=
    params.alpha
    + params.investment_intercept
    - params.investment_slope * interest_rate
    + params.government
    - params.beta * params.tax
  let denominator := 1 - params.beta
  fdiv numerator denominator

/-! ## DD-AA curve model (src/model.py)

The `DDAAModel` methods below never read `self.params`, so they are embedded as
plain functions.  `numpy` elementwise arithmetic over a sample array is a `map`. -/

/-- `DDAAModel.dd_curve`: `E = 2.0 - 0.005 * Y_range + shift` over a sample array. -/
def dd_curve (Y_range : List ℚ) (shift : ℚ) : List ℚ :=
  Y_range.map (fun Y => 2.0 - 0.005 * Y + shift)

/-- `DDAAModel.aa_curve`: `E = 0.8 + 0.008 * Y_range + shift` over a sample array. -/
def aa_curve (Y_range : List ℚ) (shift : ℚ) : List ℚ :=
  Y_range.map (fun Y => 0.8 + 0.008 * Y + shift)

/-- `DDAAModel.find_equilibrium`: solves `2.0 - 0.005*Y + dd = 0.8 + 0.008*Y + aa`,
then evaluates the DD curve at the solution (the code takes element `[0]` of
`dd_curve(np.array([Y_eq]), dd_shift)`, here `headI` of the singleton). -/
def find_equilibrium (dd_shift aa_shift : ℚ) : ℚ × ℚ :=
  let Y_eq := (1.2 + dd_shift - aa_shift) / 0.013
  let E_eq := (dd_curve [Y_eq] dd_shift).headI
  (Y_eq, E_eq)

/-! ## Frame data model (src/solver.py)

A frame is a Python dict.  Its keys are fixed by `_generate_base_curves` plus a
small set of optional keys added by the scenario builders; absent keys are
`none`.  The `formulas` sub-dict is flattened into its two possible keys. -/

/-- Exact symbolic representation of the real number `c0 + c1 * sqrt arg`;
used only for the investment-curve samples `30 + 20*sqrt(i/8)`, the single
non-rational quantity the code produces. -/
structure SqrtVal where
  c0 : ℚ
  c1 : ℚ
  arg : ℚ
deriving DecidableEq

/-- `numpy.linspace a b n`: `n` evenly spaced samples from `a` to `b` inclusive. -/
def linspace (a b : ℚ) (n : ℕ) : List ℚ :=
  (List.range n).map (fun k => a + (b - a) * k / (n - 1))

/-- The `demand_line` sub-dict of `_generate_base_curves`. -/
structure DemandLine where
  ad_x : List ℚ
  ad_y : List ℚ
  line45_x : List ℚ
  line45_y : List ℚ
deriving DecidableEq

/-- The `interest_levels` sub-dict: keys `i1`, `i2`, `i3`. -/
structure InterestLevels where
  i1 : ℚ
  i2 : ℚ
  i3 : ℚ
deriving DecidableEq

/-- The `exchange_levels` sub-dict: keys `s1`, `s2`, `s3`. -/
structure ExchangeLevels where
  s1 : ℚ
  s2 : ℚ
  s3 : ℚ
deriving DecidableEq

/-- The `output_levels` sub-dict: keys `Y1`, `Y2`, `Y3`. -/
structure OutputLevels where
  Y1 : ℚ
  Y2 : ℚ
  Y3 : ℚ
deriving DecidableEq

/-- A frame dict of `src/solver.py`.  The thirteen base keys come from
`_generate_base_curves`; the remaining keys are optional (absent = `none`). -/
structure Frame where
  invest_curve : List ℚ × List SqrtVal
  demand_line : DemandLine
  uip_curve : List ℚ × List ℚ
  lm_curve : List ℚ × List ℚ
  points_DD_pre : List ℚ × List ℚ
  points_DD_post : List ℚ × List ℚ
  points_AA_pre : List ℚ × List ℚ
  points_AA_post : List ℚ × List ℚ
  equilibrium_pre : ℚ × ℚ
  equilibrium_post : ℚ × ℚ
  interest_levels : InterestLevels
  exchange_levels : ExchangeLevels
  output_levels : OutputLevels
  title : Option String := none
  description : Option String := none
  trajectory_progress : Option ℚ := none
  show_shifts : Option Bool := none
  highlight_curve : Option String := none
  show_equilibrium_comparison : Option Bool := none
  formulas_top : Option String := none
  formulas_green_box : Option String := none
  highlight_announcement : Option Bool := none
  show_multiple_curves : Option Bool := none
  show_aa_arrows : Option Bool := none
  show_policy_box : Option Bool := none
  policy_text : Option String := none
  lm_curve_original : Option (List ℚ × List ℚ) := none
  demand_curves_multi : Option Bool := none
deriving DecidableEq

/-- `_generate_base_curves`: base curve data for all panels.  (The local
`e_range = np.linspace(0.8, 2.2, 100)` of the source is unused and omitted.) -/
def generate_base_curves : Frame :=
  let i_range := linspace 0 8 100
  let y_range := linspace 50 150 100
  let invest_x := i_range
  let invest_y := i_range.map (fun i => SqrtVal.mk 30 20 (i / 8))
  let uip_x := (i_range.drop 10).take 60
  let uip_y := uip_x.map (fun x => 1.8 - 0.012 * x)
  let lm_x := y_range.take 80
  let lm_y := lm_x.map (fun x => 1.5 + 0.025 * (x - 50))
  let dd_y := y_range
  let dd_e_pre := dd_y.map (fun y => 1.8 - 0.006 * (y - 100))
  let aa_y := y_range
  let aa_e_pre := aa_y.map (fun y => 1.0 + 0.008 * (y - 100))
  let y_eq : ℚ := 100.0
  let e_eq : ℚ := 1.4
  let i_eq : ℚ := 3.0
  { invest_curve := (invest_x, invest_y)
    demand_line :=
      { ad_x := y_range
        ad_y := y_range.map (fun y => 0.7 * y + 15)
        line45_x := y_range
        line45_y := y_range }
    uip_curve := (uip_x, uip_y)
    lm_curve := (lm_x, lm_y)
    points_DD_pre := (dd_y, dd_e_pre)
    points_DD_post := (dd_y, dd_e_pre)
    points_AA_pre := (aa_y, aa_e_pre)
    points_AA_post := (aa_y, aa_e_pre)
    equilibrium_pre := (y_eq, e_eq)
    equilibrium_post := (y_eq, e_eq)
    interest_levels := { i1 := i_eq, i2 := i_eq - 1, i3 := i_eq }
    exchange_levels := { s1 := 1.4, s2 := 1.5, s3 := 1.4 }
    output_levels := { Y1 := 100, Y2 := 110, Y3 := 100 } }

/-! ### Frame-deriving helpers

Each Python helper starts with `new_data = data.copy()`.  That copy is shallow:
the nested `interest_levels`, `exchange_levels` and `output_levels` dicts stay
shared between the input and the returned frame, so an item assignment into one
of them through the returned frame is also visible through the input frame.
Each helper below returns the value of the returned frame; `py_after_call`
recovers the value of the input frame after the call. -/

/-- `_shift_lm_curves`: shifts the LM x-samples and records the original curve.
Only top-level keys are written. -/
def shift_lm_curves (data : Frame) (shift_right : Bool) : Frame :=
  let shift : ℚ := if shift_right then 15 else -15
  { data with
    lm_curve := (data.lm_curve.1.map (fun x => x + shift), data.lm_curve.2)
    lm_curve_original := some data.lm_curve }

/-- `_shift_aa_curve`: adds `±0.2` to the post-shock AA y-samples.
Only a top-level key is written. -/
def shift_aa_curve (data : Frame) (shift_right : Bool) : Frame :=
  let shift : ℚ := if shift_right then 0.2 else -0.2
  { data with
    points_AA_post := (data.points_AA_post.1, data.points_AA_post.2.map (fun e => e + shift)) }

/-- `_adjust_interest_rate`: writes `interest_levels["i2"]` — an item assignment
into the nested dict shared with the input frame. -/
def adjust_interest_rate (data : Frame) (decrease : Bool) : Frame :=
  let il := data.interest_levels
  { data with
    interest_levels := if decrease then { il with i2 := il.i1 - 1 } else { il with i2 := il.i1 + 1 } }

/-- `_calculate_new_equilibrium`: writes the top-level `equilibrium_post` and the
nested `output_levels["Y2"]` (the latter through the shared dict). -/
def calculate_new_equilibrium (data : Frame) (output_increase : Bool) : Frame :=
  let new_y := if output_increase then data.equilibrium_pre.1 + 10 else data.equilibrium_pre.1 - 10
  let new_e := if output_increase then data.equilibrium_pre.2 + 0.1 else data.equilibrium_pre.2 - 0.1
  { data with
    equilibrium_post := (new_y, new_e)
    output_levels := { data.output_levels with Y2 := new_y } }

/-- `_permanent_expansion_shifts`: cumulative shifts for the permanent monetary
expansion scenario.  `interest_levels["i2"]`, `exchange_levels["s2"]`,
`interest_levels["i3"]` and `exchange_levels["s3"]` are item assignments into
the nested dicts shared with `base_data`. -/
def permanent_expansion_shifts (base_data : Frame) (step : ℤ) : Frame :=
  let data := base_data
  let data :=
    if 1 ≤ step then
      let d := shift_lm_curves data true
      let d := { d with interest_levels := { d.interest_levels with i2 := d.interest_levels.i1 - 1 } }
      { d with demand_curves_multi := some true }
    else data
  let data :=
    if 2 ≤ step then
      let d := { data with
        points_AA_post := (data.points_AA_pre.1, data.points_AA_pre.2.map (fun e => e + 0.3))
        exchange_levels := { data.exchange_levels with s2 := 1.6 } }
      { d with points_DD_post := (d.points_DD_pre.1, d.points_DD_pre.2.map (fun e => e - 0.1)) }
    else data
  let data :=
    if 3 ≤ step then
      { data with
        points_AA_post := (data.points_AA_pre.1, data.points_AA_pre.2.map (fun e => e + 0.05))
        equilibrium_post := data.equilibrium_pre
        interest_levels := { data.interest_levels with i3 := data.interest_levels.i1 }
        exchange_levels := { data.exchange_levels with s3 := data.exchange_levels.s1 } }
    else data
  data

/-! ### Scenario frame lists (src/solver.py lines 6-130 and 317-330) -/

/-- `_initial_equilibrium_frames`: single steady-state frame. -/
def initial_equilibrium_frames : List Frame :=
  let base_data := generate_base_curves
  [{ base_data with
      title := some "Initial Equilibrium | GDP at Full Employment Level"
      description := some "Economy at full employment with stable prices and exchange rate."
      trajectory_progress := some 0.0
      show_shifts := some false }]

/-- `_temporary_monetary_expansion_frames`: five frames built by chaining the
helpers.  The nested level dicts are shared by all five frames; the two nested
writes in this flow (`i2 := i1 - 1` and `Y2 := 110`) restore the values the
shared dicts already hold, so the functional chaining below yields exactly the
values every frame ends with. -/
def temporary_monetary_expansion_frames : List Frame :=
  let base := generate_base_curves
  let frame1 := { base with
    title := some "Initial Equilibrium | GDP at Full Employment Level"
    description := some "Starting point: Full employment equilibrium"
    trajectory_progress := some 0.0
    show_shifts := some false }
  let frame2 := { shift_lm_curves base true with
    title := some "Monetary Expansion | Step 1: Money Supply Increases"
    description := some "Central bank increases money supply, shifting LM curve right"
    trajectory_progress := some 0.2
    show_shifts := some true
    highlight_curve := some "lm" }
  let frame3 := { adjust_interest_rate frame2 true with
    title := some "Monetary Expansion | Step 2: Interest Rate Falls"
    description := some "Lower money demand leads to lower interest rates"
    trajectory_progress := some 0.4
    show_shifts := some true
    highlight_curve := some "investment" }
  let frame4 := { shift_aa_curve frame3 true with
    title := some "Monetary Expansion | Step 3: AA Curve Shifts"
    description := some "Lower interest rate causes currency depreciation, AA shifts right"
    trajectory_progress := some 0.7
    show_shifts := some true
    highlight_curve := some "aa" }
  let frame5 := { calculate_new_equilibrium frame4 true with
    title := some "Monetary Expansion | New Equilibrium"
    description := some "Output increases temporarily above full employment"
    trajectory_progress := some 1.0
    show_shifts := some true
    show_equilibrium_comparison := some true }
  [frame1, frame2, frame3, frame4, frame5]

/-- `_permanent_monetary_expansion_frames`: five frames.  All five frames share
`base`'s nested level dicts, so the `s2 := 1.6` assignment performed while
building frames 4 and 5 is observed by every frame of the returned list; the
final map below applies the final values of the shared dicts to each frame. -/
def permanent_monetary_expansion_frames : List Frame :=
  let base := generate_base_curves
  let frame1 := { base with
    title := some "INITIAL EQUILIBRIUM | GDP is at its Full Employment Level"
    description := some "Y₁ at full employment, stable interest rate i₁"
    trajectory_progress := some 0.0
    show_shifts := some false
    formulas_top := some "D₁ = C₁(Y₁ - T) + I(i₁) + G₁ + CA₁[(Y₁ - T), s₁P*/P]" }
  let frame2 := { base with
    title := some "PERMANENT Expansionary Monetary Policy - SHORT RUN"
    description := some "Central bank announces permanent money supply increase"
    trajectory_progress := some 0.15
    show_shifts := some true
    highlight_announcement := some true }
  let frame3 := { permanent_expansion_shifts base 1 with
    title := some "PERMANENT Expansionary Monetary Policy - Adjustments"
    description := some "LM shifts right, interest rates fall to i₂"
    trajectory_progress := some 0.4
    show_shifts := some true
    show_multiple_curves := some true
    formulas_top := some "D₂ = C₂(Y₂ - T) + I(i₂) + G₁ + CA₂[(Y₂ - T), s₂P*/P]"
    formulas_green_box := some "D₂ = C₁(Y₁ - T) + I(i₁)\n+G₁ + CA₂[(Y₂ - T), s₃P*/P]" }
  let frame4 := { permanent_expansion_shifts base 2 with
    title := some "PERMANENT Expansionary Monetary Policy - AA Response"
    description := some "AA shifts right due to expected depreciation"
    trajectory_progress := some 0.7
    show_shifts := some true
    show_aa_arrows := some true }
  let frame5 := { permanent_expansion_shifts base 3 with
    title := some "Maintaining the GDP at its Full Employment Level"
    description := some "The EXPANSIONARY MONETARY policy compensates the change in money demand"
    trajectory_progress := some 1.0
    show_shifts := some true
    show_policy_box := some true
    policy_text := some "The EXPANSIONARY MONETARY policy\ncompensates the change in money demand\nand the interest rate remains at its level i₁.\nThe AA shifts back to its original level The\noutput remains at it full-employment level:\nY₁ = Y₃   i₁ = i₃   s₁ = s₃" }
  let final := permanent_expansion_shifts base 3
  [frame1, frame2, frame3, frame4, frame5].map (fun f =>
    { f with
      interest_levels := final.interest_levels
      exchange_levels := final.exchange_levels
      output_levels := final.output_levels })

/-- `_temporary_fiscal_expansion_frames`: placeholder returning the initial
equilibrium frames. -/
def temporary_fiscal_expansion_frames : List Frame :=
  initial_equilibrium_frames

/-- `_permanent_fiscal_expansion_frames`: placeholder returning the initial
equilibrium frames. -/
def permanent_fiscal_expansion_frames : List Frame :=
  initial_equilibrium_frames

/-- `_exchange_rate_crisis_frames`: placeholder returning the initial
equilibrium frames. -/
def exchange_rate_crisis_frames : List Frame :=
  initial_equilibrium_frames

/-- `get_scenario_frames`: dispatch on the scenario index; any index other than
0-5 falls back to the initial-equilibrium frames. -/
def get_scenario_frames (idx : ℤ) : List Frame :=
  if idx = 0 then initial_equilibrium_frames
  else if idx = 1 then temporary_monetary_expansion_frames
  else if idx = 2 then permanent_monetary_expansion_frames
  else if idx = 3 then temporary_fiscal_expansion_frames
  else if idx = 4 then permanent_fiscal_expansion_frames
  else if idx = 5 then exchange_rate_crisis_frames
  else initial_equilibrium_frames

/-- Value of the `input` frame dict after it has been passed to one of the
helpers above whose returned value is `output`: by the shallow-copy sharing
described above, the input ends with the output's nested level dicts while all
its top-level entries are untouched. -/
def py_after_call (input output : Frame) : Frame :=
  { input with
    interest_levels := output.interest_levels
    exchange_levels := output.exchange_levels
    output_levels := output.output_levels }

/-! ## Scenario registry and navigation (app.py) -/

/-- A value of a `changes` dict entry in `app.py`: a Python bool, number or
string. -/
inductive CVal where
  | b (v : Bool)
  | n (v : ℚ)
  | s (v : String)
deriving DecidableEq

/-- One step of a scenario in the `SCENARIOS` registry. -/
structure ScenarioStep where
  title : String
  description : String
  changes : List (String × CVal)
deriving DecidableEq, Inhabited

/-- The `SCENARIOS` registry of `app.py` (dict iteration order = insertion
order). -/
def SCENARIOS : List (String × List ScenarioStep) :=
  [("Permanent Monetary Expansion",
    [⟨"Initial Equilibrium", "Economy at full employment Y₁", []⟩,
     ⟨"Money Supply Increase", "Central bank increases M^S → LM shifts right → i falls",
      [("lm_shift", .b true), ("i_level", .s "i2")]⟩,
     ⟨"UIP Response", "Lower interest rate → Currency depreciates → AA shifts right",
      [("lm_shift", .b true), ("i_level", .s "i2"), ("aa_shift", .n 1)]⟩,
     ⟨"DD Adjustment", "Depreciation boosts exports → DD shifts right",
      [("lm_shift", .b true), ("i_level", .s "i2"), ("aa_shift", .n 1), ("dd_shift", .b true)]⟩,
     ⟨"New Short-Run Equilibrium", "Economy at Y₂ > Y₁ with higher exchange rate",
      [("lm_shift", .b true), ("i_level", .s "i2"), ("aa_shift", .n 1), ("dd_shift", .b true),
       ("equilibrium", .s "Y2")]⟩,
     ⟨"Long-Run Adjustment",
      "Prices adjust → AA shifts back → Return to Y₁ with permanently higher E",
      [("lm_shift", .b true), ("i_level", .s "i3"), ("aa_shift", .n 2), ("dd_shift", .b true),
       ("equilibrium", .s "Y3")]⟩]),
   ("Temporary Monetary Expansion",
    [⟨"Initial Equilibrium", "Economy at full employment Y₁", []⟩,
     ⟨"Money Supply Increase",
      "Central bank temporarily increases M^S → LM shifts right → i falls",
      [("lm_shift", .b true), ("i_level", .s "i2")]⟩,
     ⟨"Limited UIP Response",
      "Lower i → Limited depreciation (agents expect reversal) → Small AA shift",
      [("lm_shift", .b true), ("i_level", .s "i2"), ("aa_shift", .n 0.5)]⟩,
     ⟨"Short-Run Equilibrium", "Small increase in Y and E due to expectations",
      [("lm_shift", .b true), ("i_level", .s "i2"), ("aa_shift", .n 0.5),
       ("equilibrium", .s "Y1.5")]⟩,
     ⟨"Policy Reversal", "Money supply returns to original level → Back to Y₁", []⟩]),
   ("Permanent Fiscal Expansion",
    [⟨"Initial Equilibrium", "Economy at full employment Y₁", []⟩,
     ⟨"Government Spending Increase", "G increases → DD shifts right immediately",
      [("dd_shift", .b true)]⟩,
     ⟨"Short-Run Effects",
      "Higher Y → Higher money demand → i rises → Currency appreciates",
      [("dd_shift", .b true), ("i_level", .s "i2.5"), ("s_level", .s "s0.5")]⟩,
     ⟨"AA Response", "Higher i → AA shifts left → Partial crowding out",
      [("dd_shift", .b true), ("aa_shift", .n (-1)), ("equilibrium", .s "Y1.3")]⟩,
     ⟨"Long-Run Adjustment",
      "Prices rise → Real money supply falls → Further crowding out",
      [("dd_shift", .b true), ("aa_shift", .n (-1.5)), ("equilibrium", .s "Y1"),
       ("s_level", .s "s0.3")]⟩]),
   ("Temporary Fiscal Expansion",
    [⟨"Initial Equilibrium", "Economy at full employment Y₁", []⟩,
     ⟨"Government Spending Increase", "Temporary G increase → DD shifts right",
      [("dd_shift", .b true)]⟩,
     ⟨"Short-Run Response", "Y rises → i rises → Limited currency appreciation",
      [("dd_shift", .b true), ("i_level", .s "i2"), ("equilibrium", .s "Y1.2")]⟩,
     ⟨"Policy Reversal", "G returns to original level → DD shifts back", []⟩]),
   ("Permanent Real Sector Shock",
    [⟨"Initial Equilibrium", "Economy at full employment Y₁", []⟩,
     ⟨"Productivity Improvement",
      "Technology advance → Potential output increases → Y* rises",
      [("y_potential", .s "Y2")]⟩,
     ⟨"Investment Response", "Higher productivity → Investment increases → i falls",
      [("y_potential", .s "Y2"), ("i_level", .s "i2"), ("investment_shift", .b true)]⟩,
     ⟨"DD and AA Adjustments", "Higher I → DD shifts right; Lower i → AA shifts right",
      [("dd_shift", .b true), ("aa_shift", .n 1), ("equilibrium", .s "Y2")]⟩,
     ⟨"New Long-Run Equilibrium", "Economy at new full employment Y₂ > Y₁",
      [("dd_shift", .b true), ("aa_shift", .n 1), ("equilibrium", .s "Y2"),
       ("y_potential", .s "Y2")]⟩]),
   ("Monetary Contraction",
    [⟨"Initial Equilibrium", "Economy at full employment Y₁", []⟩,
     ⟨"Money Supply Decrease", "Central bank reduces M^S → LM shifts left → i rises",
      [("lm_shift", .n (-1)), ("i_level", .s "i3")]⟩,
     ⟨"UIP Response", "Higher interest rate → Currency appreciates → AA shifts left",
      [("lm_shift", .n (-1)), ("i_level", .s "i3"), ("aa_shift", .n (-1))]⟩,
     ⟨"DD Adjustment", "Appreciation hurts exports → DD shifts left",
      [("lm_shift", .n (-1)), ("i_level", .s "i3"), ("aa_shift", .n (-1)),
       ("dd_shift", .n (-1))]⟩,
     ⟨"Short-Run Recession", "Economy at Y₀ < Y₁ with lower exchange rate",
      [("lm_shift", .n (-1)), ("i_level", .s "i3"), ("aa_shift", .n (-1)),
       ("dd_shift", .n (-1)), ("equilibrium", .s "Y0")]⟩,
     ⟨"Long-Run Adjustment", "Prices fall → AA shifts back → Return to Y₁ with lower E",
      [("lm_shift", .n (-1)), ("i_level", .s "i1"), ("aa_shift", .n (-0.5)),
       ("dd_shift", .n (-1)), ("equilibrium", .s "Y1")]⟩])]

/-- Navigation session state of `app.py`: current scenario and step index. -/
structure NavState where
  scenarioName : String
  current_step : ℤ

/-- Next button handler (app.py line 270):
`st.session_state.current_step = min(max_steps, current_step + 1)` where
`max_steps = len(steps) - 1`. -/
def advance_step (max_steps n : ℤ) : ℤ := min max_steps (n + 1)

/-- Previous button handler (app.py line 261):
`st.session_state.current_step = max(0, current_step - 1)`. -/
def retreat_step (n : ℤ) : ℤ := max 0 (n - 1)

/-- Scenario selector handler (app.py lines 244-247): on a changed selection the
scenario is replaced and the step index is reset to 0. -/
def on_scenario_change (st : NavState) (new_sc : String) : NavState :=
  if new_sc ≠ st.scenarioName then { scenarioName := new_sc, current_step := 0 } else st

/-! ## Transition Interpolator (spec §4.5; no implementation exists under src/) -/

/-- A frame reduced to its numeric fields, as a field-name/value association
list. -/
abbrev NumFrame := List (String × ℚ)

/-- Modelled from the spec: the numeric fields shared by a source and a target
frame, with both values; a field present in only one frame is dropped. -/
def shared_fields (src tgt : NumFrame) : List (String × ℚ × ℚ) :=
  src.filterMap (fun p => (tgt.lookup p.1).map (fun tv => (p.1, p.2, tv)))

/-- Modelled from the spec: linear interpolation `source×(1−t) + target×t`. -/
def lerp (s t u : ℚ) : ℚ := s * (1 - u) + t * u

/-- Modelled from the spec: the Transition Interpolator, which is absent from
src/.  Given a source frame, a target frame and a step count `K`, produce `K`
frames whose shared numeric field at index `i` is the linear interpolation with
`t = i/(K−1)`. -/
def interpolate_frames (src tgt : NumFrame) (K : ℕ) : List NumFrame :=
  (List.range K).map (fun (i : ℕ) =>
    (shared_fields src tgt).map (fun p => (p.1, lerp p.2.1 p.2.2 ((i : ℚ) / ((K : ℚ) - 1)))))

/-! ## Claims C3, C7, C8, C9 -/

/-- C3: for every pair of shift magnitudes, the point `(Y, E)` returned by
`find_equilibrium` lies on both shifted curves within tolerance `1e-8`
(in the exact rational embedding the residual is `0`). -/
theorem c3_equilibrium_on_both_curves (dd_shift aa_shift : ℚ) :
    |(dd_curve [(find_equilibrium dd_shift aa_shift).1] dd_shift).headI
        - (find_equilibrium dd_shift aa_shift).2| ≤ 1 / 100000000
  ∧ |(aa_curve [(find_equilibrium dd_shift aa_shift).1] aa_shift).headI
        - (find_equilibrium dd_shift aa_shift).2| ≤ 1 / 100000000 := by
  constructor
  · simp [find_equilibrium]
  · have h : (aa_curve [(find_equilibrium dd_shift aa_shift).1] aa_shift).headI
        = (find_equilibrium dd_shift aa_shift).2 := by
      simp only [find_equilibrium, dd_curve, aa_curve, List.map, List.headI]
      field_simp
      ring
    rw [h, sub_self, abs_zero]
    norm_num

/-- C7: `solve_equilibrium` returns the closed-form value when `beta ≠ 1` and
fails with a division-by-zero error (embedded as `none`) when `beta = 1`. -/
theorem c7_solve_equilibrium_cases (p : Parameters) (r : ℚ) :
    (p.beta ≠ 1 → solve_equilibrium p r =
      some ((p.alpha + p.investment_intercept - p.investment_slope * r
              + p.government - p.beta * p.tax) / (1 - p.beta)))
  ∧ (p.beta = 1 → solve_equilibrium p r = none) := by
  constructor
  · intro h
    have hd : 1 - p.beta ≠ 0 := sub_ne_zero.mpr (Ne.symm h)
    simp [solve_equilibrium, fdiv, hd]
  · intro h
    simp [solve_equilibrium, fdiv, h]

/-- C7 witness: both branches of `c7_solve_equilibrium_cases` at concrete inputs. -/
theorem c7_solve_equilibrium_cases_witness :
    ((0.6 : ℚ) ≠ 1
      ∧ solve_equilibrium ⟨50, 0.6, 40, 5, 20, 10⟩ 2 =
          some ((50 + 40 - 5 * 2 + 20 - 0.6 * 10) / (1 - 0.6)))
  ∧ ((1 : ℚ) = 1 ∧ solve_equilibrium ⟨50, 1, 40, 5, 20, 10⟩ 2 = none) :=
  ⟨⟨by norm_num, (c7_solve_equilibrium_cases ⟨50, 0.6, 40, 5, 20, 10⟩ 2).1 (by norm_num)⟩,
   ⟨rfl, (c7_solve_equilibrium_cases ⟨50, 1, 40, 5, 20, 10⟩ 2).2 rfl⟩⟩

/-- C8: `solve_equilibrium` with alpha=50, beta=0.6, investment_intercept=40,
investment_slope=5, government=20, tax=10 and interest_rate=2 returns exactly 235. -/
theorem c8_solve_equilibrium_value :
    solve_equilibrium ⟨50, 0.6, 40, 5, 20, 10⟩ 2 = some 235 := by
  norm_num [solve_equilibrium, fdiv]

/-- C9: for every sample domain, a shift of `0.0` yields y-values identical to
the unshifted base relationship, for both the DD and the AA curve. -/
theorem c9_zero_shift (Y_range : List ℚ) :
    dd_curve Y_range 0 = Y_range.map (fun Y => 2.0 - 0.005 * Y)
  ∧ aa_curve Y_range 0 = Y_range.map (fun Y => 0.8 + 0.008 * Y) := by
  constructor <;> simp [dd_curve, aa_curve]

/-! ## Claims C1, C2, C4 -/

/-- C1 counterexample: the out-of-range scenario index 6 does not signal a
configuration error — `get_scenario_frames` silently returns the default
(initial-equilibrium) scenario's frames, exactly what the claim denies. -/
theorem c1_silent_fallback_at_6 :
    get_scenario_frames 6 = get_scenario_frames 0 := rfl

/-- C1 amended: looking up a scenario index outside the defined range 0-5 does
not signal an error; `get_scenario_frames` unconditionally falls back to the
initial-equilibrium scenario's frames. -/
theorem c1_out_of_range_fallback (n : ℤ) (h0 : n ≠ 0) (h1 : n ≠ 1) (h2 : n ≠ 2)
    (h3 : n ≠ 3) (h4 : n ≠ 4) (h5 : n ≠ 5) :
    get_scenario_frames n = initial_equilibrium_frames := by
  simp [get_scenario_frames, h0, h1, h2, h3, h4, h5]

/-- C1 witness: the fallback at the concrete out-of-range index 7. -/
theorem c1_out_of_range_fallback_witness :
    (7 : ℤ) ≠ 0 ∧ (7 : ℤ) ≠ 1 ∧ (7 : ℤ) ≠ 2 ∧ (7 : ℤ) ≠ 3 ∧ (7 : ℤ) ≠ 4 ∧ (7 : ℤ) ≠ 5
  ∧ get_scenario_frames 7 = initial_equilibrium_frames :=
  ⟨by decide, by decide, by decide, by decide, by decide, by decide,
   c1_out_of_range_fallback 7 (by decide) (by decide) (by decide) (by decide)
     (by decide) (by decide)⟩

/-- C2: evaluation at the failing input.  Passing the base frame to
`_permanent_expansion_shifts` with `step = 2` mutates the input frame: the
nested `exchange_levels` dict it shares with the returned frame has its `s2`
entry overwritten, 1.5 → 1.6, so the input frame is not left unchanged. -/
theorem c2_input_frame_mutated :
    (py_after_call generate_base_curves
        (permanent_expansion_shifts generate_base_curves 2)).exchange_levels.s2 = 1.6
  ∧ generate_base_curves.exchange_levels.s2 = 1.5
  ∧ py_after_call generate_base_curves
      (permanent_expansion_shifts generate_base_curves 2) ≠ generate_base_curves := by
  refine ⟨rfl, rfl, ?_⟩
  intro h
  have h2 : (py_after_call generate_base_curves
      (permanent_expansion_shifts generate_base_curves 2)).exchange_levels.s2
      = generate_base_curves.exchange_levels.s2 := by rw [h]
  rw [show (py_after_call generate_base_curves
      (permanent_expansion_shifts generate_base_curves 2)).exchange_levels.s2 = 1.6 from rfl,
    show generate_base_curves.exchange_levels.s2 = 1.5 from rfl] at h2
  norm_num at h2

/-- C4: the scenario indices 3 (temporary fiscal expansion), 4 (permanent fiscal
expansion) and 5 (exchange-rate crisis) all return exactly the frame list of
index 0, the initial equilibrium. -/
theorem c4_placeholder_scenarios_alias_initial :
    get_scenario_frames 3 = get_scenario_frames 0
  ∧ get_scenario_frames 4 = get_scenario_frames 0
  ∧ get_scenario_frames 5 = get_scenario_frames 0 :=
  ⟨rfl, rfl, rfl⟩

/-! ## Claim C5 -/

/-- C5: for every source frame, target frame and step count `K ≥ 2`, the
interpolator yields exactly `K` frames; frame 0 carries the source's values and
frame `K−1` the target's values on the shared numeric fields, and the frame at
index `i` carries the linear interpolation with `t = i/(K−1)`. -/
theorem c5_interpolator (src tgt : NumFrame) (K : ℕ) (hK : 2 ≤ K) :
    (interpolate_frames src tgt K).length = K
  ∧ (interpolate_frames src tgt K)[0]? =
      some ((shared_fields src tgt).map (fun p => (p.1, p.2.1)))
  ∧ (interpolate_frames src tgt K)[K - 1]? =
      some ((shared_fields src tgt).map (fun p => (p.1, p.2.2)))
  ∧ ∀ i, i < K →
      (interpolate_frames src tgt K)[i]? =
        some ((shared_fields src tgt).map
          (fun p => (p.1, lerp p.2.1 p.2.2 ((i : ℚ) / ((K : ℚ) - 1))))) := by
  have hK1 : (K : ℚ) - 1 ≠ 0 := by
    have h2 : (2 : ℚ) ≤ (K : ℚ) := by exact_mod_cast hK
    linarith
  have hgen : ∀ i, i < K →
      (interpolate_frames src tgt K)[i]? =
        some ((shared_fields src tgt).map
          (fun p => (p.1, lerp p.2.1 p.2.2 ((i : ℚ) / ((K : ℚ) - 1))))) := by
    intro i hi
    simp only [interpolate_frames, List.getElem?_map, List.getElem?_range hi,
      Option.map_some']
  refine ⟨by simp only [interpolate_frames, List.length_map, List.length_range], ?_, ?_, hgen⟩
  · rw [hgen 0 (by omega)]
    congr 1
    apply List.map_congr_left
    intro p _
    simp [lerp]
  · rw [hgen (K - 1) (by omega)]
    congr 1
    apply List.map_congr_left
    intro p _
    have hcast : ((K - 1 : ℕ) : ℚ) = (K : ℚ) - 1 := by
      have h1 : 1 ≤ K := by omega
      push_cast [h1]
      ring
    rw [hcast, div_self hK1]
    simp [lerp]

/-- C5 witness: the interpolator at a concrete source/target pair and `K = 10`. -/
theorem c5_interpolator_witness :
    2 ≤ 10
  ∧ (interpolate_frames [("Y", 0)] [("Y", 9), ("E", 1)] 10).length = 10 :=
  ⟨by decide, (c5_interpolator [("Y", 0)] [("Y", 9), ("E", 1)] 10 (by decide)).1⟩

/-! ## Claims C6, C10 -/

/-- C6: navigation is a saturating linear chain — the Next handler yields
`min(n+1, N−1)` and is a no-op at the last step, the Previous handler yields
`max(n−1, 0)` and is a no-op at the first step, and switching to a different
scenario resets the step index to 0 regardless of the prior index. -/
theorem c6_navigation (N n : ℤ) :
    advance_step (N - 1) n = min (n + 1) (N - 1)
  ∧ (n = N - 1 → advance_step (N - 1) n = n)
  ∧ retreat_step n = max (n - 1) 0
  ∧ (n = 0 → retreat_step n = n)
  ∧ (∀ (st : NavState) (new_sc : String), new_sc ≠ st.scenarioName →
      (on_scenario_change st new_sc).current_step = 0) := by
  refine ⟨?_, ?_, ?_, ?_, ?_⟩
  · simp [advance_step, min_comm]
  · intro h
    subst h
    simp only [advance_step]
    omega
  · simp [retreat_step, max_comm]
  · intro h
    subst h
    simp only [retreat_step]
    omega
  · intro st new_sc h
    simp [on_scenario_change, h]

/-- C6 witness: saturation at both boundaries and the scenario-switch reset at
concrete inputs. -/
theorem c6_navigation_witness :
    advance_step (5 - 1) (5 - 1) = 5 - 1
  ∧ retreat_step 0 = 0
  ∧ (on_scenario_change ⟨"Permanent Monetary Expansion", 3⟩ "Monetary Contraction").current_step
      = 0 :=
  ⟨(c6_navigation 5 (5 - 1)).2.1 rfl,
   (c6_navigation 5 0).2.2.2.1 rfl,
   (c6_navigation 5 0).2.2.2.2 ⟨"Permanent Monetary Expansion", 3⟩ "Monetary Contraction"
     (by decide)⟩

/-- C10: every scenario of the registry has at least one step whose first step
has an empty Shift State, and the frame built for the empty Shift State (the
base frame) has identical pre-shock and post-shock DD curves, AA curves and
equilibrium points. -/
theorem c10_initial_equilibrium_invariant :
    (∀ j, j < SCENARIOS.length →
      (SCENARIOS.getD j ("", [])).2 ≠ []
      ∧ ((SCENARIOS.getD j ("", [])).2.headI).changes = [])
  ∧ generate_base_curves.points_DD_pre = generate_base_curves.points_DD_post
  ∧ generate_base_curves.points_AA_pre = generate_base_curves.points_AA_post
  ∧ generate_base_curves.equilibrium_pre = generate_base_curves.equilibrium_post := by
  refine ⟨?_, rfl, rfl, rfl⟩
  decide

/-- C10 witness: the invariant at the first registry entry. -/
theorem c10_initial_equilibrium_invariant_witness :
    0 < SCENARIOS.length
  ∧ ((SCENARIOS.getD 0 ("", [])).2 ≠ []
      ∧ ((SCENARIOS.getD 0 ("", [])).2.headI).changes = []) :=
  ⟨by decide, c10_initial_equilibrium_invariant.1 0 (by decide)⟩
